import Mathlib

/-!
Verification of the dynamic SQL filter injection engine and the report
orchestrator of the `pipeliine-reportes-postventa` repository.

The core under study is `BigQueryClient.apply_dynamic_filters` in
`src/modules/bigquery_client.py`.  That function delegates tokenization to
the `sqlparse` library:

  * `sqlparse.parse(query)` returns a tuple of statements; it is empty
    exactly when the input lexes to no tokens (the empty string).
  * The lexer emits `ORDER BY` / `GROUP BY` as a single `Keyword` token
    (the whitespace between the two words is kept inside the token value).
  * The grouping pass wraps every `WHERE` keyword together with the tokens
    that follow it — up to the next closing keyword (`ORDER BY`, `GROUP BY`,
    `LIMIT`, `UNION`, `EXCEPT`, `HAVING`, `RETURNING`, `INTO`) or the end of
    the statement — into a `Where` group token whose `ttype` is `None`.
  * `str(token)` reproduces the token's original text verbatim.

The embedding below models the lexer and the grouping pass for the query
shapes in scope (single top-level SELECT statements with optional
WHERE / GROUP BY / ORDER BY / LIMIT clauses), then transcribes
`apply_dynamic_filters` over the resulting token lists.
-/

namespace Postventa

/-- Token type tags, mirroring the `sqlparse.tokens` classes the code
inspects.  In `sqlparse` a group token (e.g. a `Where` clause) has
`ttype = None`; we model `ttype` as an `Option TType` accordingly.  The
Python check `token.ttype is sqlparse.tokens.Keyword` is an identity test,
so `DML` (the type of `SELECT`) does not count as `Keyword`. -/
inductive TType where
  | Keyword
  | DML
  | Whitespace
  | Name
  | Punct
  deriving DecidableEq, Repr

/-- A lexical token: a `ttype` (none for group tokens) and its verbatim
source text, as returned by `str(token)`. -/
structure Token where
  ttype : Option TType
  value : String
  deriving DecidableEq, Repr

/-- Character class used by the lexer for whitespace runs. -/
def isWsChar (c : Char) : Bool :=
  c == ' ' || c == '\t' || c == '\n' || c == '\r'

/-- Character class used by the lexer for word runs (identifiers,
keywords, numbers). -/
def isWordChar (c : Char) : Bool :=
  c.isAlphanum || c == '_'

/-- ASCII upper-casing of a string (`str.upper()` on the ASCII keywords
involved), written as a structural map over the character list. -/
def toUpperStr (s : String) : String :=
  String.mk (s.data.map Char.toUpper)

/-- The keywords `sqlparse` reports with ttype `Keyword` that matter here:
the ones `apply_dynamic_filters` scans for and the ones that close a
`Where` group. -/
def keywordWords : List String :=
  ["WHERE", "FROM", "ORDER", "GROUP", "BY", "LIMIT", "HAVING", "UNION",
   "EXCEPT", "INTO", "RETURNING", "AND", "OR", "NOT", "IN", "IS", "NULL",
   "TRUE", "FALSE", "ASC", "DESC", "BETWEEN", "CASE", "WHEN", "THEN",
   "ELSE", "END", "ON", "AS", "JOIN", "DISTINCT"]

/-- Words lexed with ttype `DML` (a distinct type object from `Keyword`,
so they never satisfy the code's `is Keyword` test). -/
def dmlWords : List String := ["SELECT", "INSERT", "UPDATE", "DELETE"]

/-- Classify a word token, case-insensitively, as `sqlparse` does. -/
def classifyWord (w : String) : Token :=
  let u := toUpperStr w
  if dmlWords.contains u then ⟨some TType.DML, w⟩
  else if keywordWords.contains u then ⟨some TType.Keyword, w⟩
  else ⟨some TType.Name, w⟩

/-- Emit the token for the run currently being accumulated by the lexer:
`mode = some true` is a word run, `some false` a whitespace run, `none`
no pending run. -/
def flushRun (acc : List Char) (mode : Option Bool) : List Token :=
  match mode with
  | none => []
  | some true => [classifyWord (String.mk acc)]
  | some false => [⟨some TType.Whitespace, String.mk acc⟩]

/-- Lexer state machine: splits the character stream into maximal word
runs, maximal whitespace runs, and single punctuation characters,
preserving every character of the input in order. -/
def lexAux : List Char → List Char → Option Bool → List Token
  | [], acc, mode => flushRun acc mode
  | c :: cs, acc, mode =>
    if isWordChar c then
      match mode with
      | some true => lexAux cs (acc ++ [c]) (some true)
      | _ => flushRun acc mode ++ lexAux cs [c] (some true)
    else if isWsChar c then
      match mode with
      | some false => lexAux cs (acc ++ [c]) (some false)
      | _ => flushRun acc mode ++ lexAux cs [c] (some false)
    else
      flushRun acc mode ++ (⟨some TType.Punct, String.mk [c]⟩ :: lexAux cs [] none)

/-- Lex a query string into its flat token stream. -/
def lexString (q : String) : List Token :=
  lexAux q.data [] none

/-- Is this token a `Keyword` whose upper-cased value is `ORDER` or
`GROUP`?  (First half of the two-word keyword merge.) -/
def isOrderGroupWord (t : Token) : Bool :=
  t.ttype == some TType.Keyword &&
    (toUpperStr t.value == "ORDER" || toUpperStr t.value == "GROUP")

/-- Is this token a `Keyword` whose upper-cased value is `BY`? -/
def isByWord (t : Token) : Bool :=
  t.ttype == some TType.Keyword && toUpperStr t.value == "BY"

/-- Is this token a whitespace token? -/
def isWsTok (t : Token) : Bool :=
  t.ttype == some TType.Whitespace

/-- Pending lookahead of the `ORDER BY`/`GROUP BY` merge: either nothing,
a held-back `ORDER`/`GROUP` token, or that token plus the following
whitespace token. -/
def flushMerge : Option (Token × Option Token) → List Token
  | none => []
  | some (t1, none) => [t1]
  | some (t1, some w) => [t1, w]

/-- `sqlparse` lexes `ORDER <ws> BY` and `GROUP <ws> BY` as one `Keyword`
token whose value keeps the original whitespace between the words
(left-to-right, leftmost match, as the regex lexer does).  Implemented as
a state machine holding back up to two tokens of lookahead. -/
def mergeByAux : Option (Token × Option Token) → List Token → List Token
  | st, [] => flushMerge st
  | none, t :: rest =>
    if isOrderGroupWord t then mergeByAux (some (t, none)) rest
    else t :: mergeByAux none rest
  | some (t1, none), t :: rest =>
    if isWsTok t then mergeByAux (some (t1, some t)) rest
    else if isOrderGroupWord t then t1 :: mergeByAux (some (t, none)) rest
    else t1 :: t :: mergeByAux none rest
  | some (t1, some w), t :: rest =>
    if isByWord t then
      ⟨some TType.Keyword, t1.value ++ w.value ++ t.value⟩ :: mergeByAux none rest
    else if isOrderGroupWord t then t1 :: w :: mergeByAux (some (t, none)) rest
    else t1 :: w :: t :: mergeByAux none rest

/-- The two-word keyword merge pass over a lexed token stream. -/
def mergeBy (ts : List Token) : List Token :=
  mergeByAux none ts

/-- Does this token open a `Where` group (`sqlparse.sql.Where.M_OPEN`)? -/
def isWhereKw (t : Token) : Bool :=
  t.ttype == some TType.Keyword && toUpperStr t.value == "WHERE"

/-- Does this token close a `Where` group (`sqlparse.sql.Where.M_CLOSE`)? -/
def isCloseKw (t : Token) : Bool :=
  t.ttype == some TType.Keyword &&
    ["ORDER BY", "GROUP BY", "LIMIT", "UNION", "EXCEPT", "HAVING",
     "RETURNING", "INTO"].contains (toUpperStr t.value)

/-- The `sqlparse` grouping pass for `WHERE` clauses: from each `WHERE`
keyword up to (excluding) the next closing keyword, all tokens are fused
into a single group token with `ttype = none` whose value is the
concatenated text.  `mode = some acc` means a group is open with
accumulated text `acc`. -/
def groupWhereAux : Option String → List Token → List Token
  | none, [] => []
  | some acc, [] => [⟨none, acc⟩]
  | none, t :: rest =>
    if isWhereKw t then groupWhereAux (some t.value) rest
    else t :: groupWhereAux none rest
  | some acc, t :: rest =>
    if isCloseKw t then ⟨none, acc⟩ :: t :: groupWhereAux none rest
    else groupWhereAux (some (acc ++ t.value)) rest

/-- A parsed statement: the flat list of top-level tokens after grouping
(`statement.tokens` in the Python code). -/
structure Statement where
  tokens : List Token
  deriving DecidableEq, Repr

/-- Model of `sqlparse.parse`: the empty input yields no statements; the
single-statement query shapes in scope yield one statement whose
top-level tokens are the lexed stream after the `ORDER BY`/`GROUP BY`
merge and the `Where` grouping pass. -/
def sqlparse_parse (query : String) : List Statement :=
  let lexed := lexString query
  if lexed.isEmpty then []
  else [⟨groupWhereAux none (mergeBy lexed)⟩]

/-! ### The filter catalog (`config.DYNAMIC_FILTERS`) -/

/-- The static filter catalog from `src/config.py`, an ordered mapping
from filter name to SQL predicate fragment.  The `trimestre_actual`
fragment is a triple-quoted Python string: its leading newline, inner
indentation, trailing spaces and final indentation are part of the
value. -/
def DYNAMIC_FILTERS : List (String × String) :=
  [("mes_actual",
    "EXTRACT(MONTH FROM fecha) = EXTRACT(MONTH FROM CURRENT_DATE())"),
   ("año_actual",
    "EXTRACT(YEAR FROM fecha) = EXTRACT(YEAR FROM CURRENT_DATE())"),
   ("trimestre_actual",
    "\n        CASE \n            WHEN EXTRACT(MONTH FROM CURRENT_DATE()) BETWEEN 1 AND 3 THEN 1\n            WHEN EXTRACT(MONTH FROM CURRENT_DATE()) BETWEEN 4 AND 6 THEN 2\n            WHEN EXTRACT(MONTH FROM CURRENT_DATE()) BETWEEN 7 AND 9 THEN 3\n            ELSE 4\n        END = \n        CASE \n            WHEN EXTRACT(MONTH FROM fecha) BETWEEN 1 AND 3 THEN 1\n            WHEN EXTRACT(MONTH FROM fecha) BETWEEN 4 AND 6 THEN 2\n            WHEN EXTRACT(MONTH FROM fecha) BETWEEN 7 AND 9 THEN 3\n            ELSE 4\n        END\n    ")]

/-- Dictionary lookup `config.DYNAMIC_FILTERS[name]`; `none` when the key
is absent (membership `name in config.DYNAMIC_FILTERS` is
`(dynamicFilterGet name).isSome`). -/
def dynamicFilterGet (name : String) : Option String :=
  (DYNAMIC_FILTERS.find? (fun p => p.1 == name)).map (fun p => p.2)

/-! ### The injector (`BigQueryClient.apply_dynamic_filters`) -/

/-- A filter request: the per-query mapping from filter name to boolean,
in the insertion (iteration) order of the Python dict. -/
abbrev FilterRequest := List (String × Bool)

/-- The `conditions` list built by the loop
`for filter_name, should_apply in filters.items(): if should_apply and
filter_name in config.DYNAMIC_FILTERS: conditions.append(...)` — resolved
fragments in request-iteration order. -/
def buildConditions (filters : FilterRequest) : List String :=
  filters.filterMap (fun p => if p.2 then dynamicFilterGet p.1 else none)

/-- The scan `token.ttype is Keyword and token.value.upper() == 'WHERE'`. -/
def isWhereScanTok (t : Token) : Bool :=
  t.ttype == some TType.Keyword && toUpperStr t.value == "WHERE"

/-- The scan `token.ttype is Keyword and token.value.upper() in
('ORDER BY', 'GROUP BY', 'LIMIT')`. -/
def isTrailingScanTok (t : Token) : Bool :=
  t.ttype == some TType.Keyword &&
    ["ORDER BY", "GROUP BY", "LIMIT"].contains (toUpperStr t.value)

/-- `''.join(str(t) for t in tokens)`. -/
def joinValues (tokens : List Token) : String :=
  tokens.foldr (fun t acc => t.value ++ acc) ""

/-- `BigQueryClient.apply_dynamic_filters` from
`src/modules/bigquery_client.py`, transcribed branch by branch:
empty filters fast path, empty parse fast path, WHERE-keyword scan,
condition building, empty-conditions fast path, then one of the three
insertion strategies. -/
def apply_dynamic_filters (query : String) (filters : FilterRequest) : String :=
  if filters.isEmpty then query
  else
    match sqlparse_parse query with
    | [] => query
    | statement :: _ =>
      let tokens := statement.tokens
      let where_pos := tokens.findIdx? isWhereScanTok
      let conditions := buildConditions filters
      if conditions.isEmpty then query
      else
        let filter_condition := String.intercalate " AND " conditions
        match where_pos with
        | some i =>
          joinValues (tokens.take (i + 1)) ++ (" (" ++ filter_condition ++ ") AND ")
            ++ joinValues (tokens.drop (i + 1))
        | none =>
          match tokens.findIdx? isTrailingScanTok with
          | some i =>
            joinValues (tokens.take i) ++ (" WHERE " ++ filter_condition ++ " ")
              ++ joinValues (tokens.drop i)
          | none => query ++ " WHERE " ++ filter_condition

/-! ### The injector with partiality made explicit

The Python function contains two operations that can raise when their
guard is bypassed: the tuple indexing `parsed[0]` and the dictionary
indexing `config.DYNAMIC_FILTERS[filter_name]`.  The variant below routes
both through `Except`, so totality of the public interface becomes the
statement that it never produces `.error`. -/

/-- `parsed[0]`: raises `IndexError` on an empty parse result. -/
def firstStatement : List Statement → Except String Statement
  | [] => Except.error "IndexError: tuple index out of range"
  | s :: _ => Except.ok s

/-- `config.DYNAMIC_FILTERS[filter_name]`: raises `KeyError` when the
name is absent from the catalog. -/
def dynamicFilterItem (name : String) : Except String String :=
  match dynamicFilterGet name with
  | some v => Except.ok v
  | none => Except.error "KeyError"

/-- The condition-building loop with the dictionary access made explicit:
`if should_apply and filter_name in config.DYNAMIC_FILTERS:
conditions.append(config.DYNAMIC_FILTERS[filter_name])`; a `KeyError`
raised by the indexing would propagate out of the loop. -/
def buildConditionsEGo : FilterRequest → List String → Except String (List String)
  | [], acc => Except.ok acc
  | p :: ps, acc =>
    if p.2 && (dynamicFilterGet p.1).isSome then
      match dynamicFilterItem p.1 with
      | Except.error e => Except.error e
      | Except.ok v => buildConditionsEGo ps (acc ++ [v])
    else buildConditionsEGo ps acc

/-- The whole condition loop, starting from the empty list. -/
def buildConditionsE (filters : FilterRequest) : Except String (List String) :=
  buildConditionsEGo filters []

/-- `apply_dynamic_filters` with its two partial primitive operations
routed through `Except`.  Every `return` of the Python function becomes
`Except.ok`. -/
def apply_dynamic_filtersE (query : String) (filters : FilterRequest) :
    Except String String :=
  if filters.isEmpty then Except.ok query
  else
    let parsed := sqlparse_parse query
    if parsed.isEmpty then Except.ok query
    else
      match firstStatement parsed with
      | Except.error e => Except.error e
      | Except.ok statement =>
        let tokens := statement.tokens
        let where_pos := tokens.findIdx? isWhereScanTok
        match buildConditionsE filters with
        | Except.error e => Except.error e
        | Except.ok conditions =>
          if conditions.isEmpty then Except.ok query
          else
            let filter_condition := String.intercalate " AND " conditions
            match where_pos with
            | some i =>
              Except.ok (joinValues (tokens.take (i + 1))
                ++ (" (" ++ filter_condition ++ ") AND ")
                ++ joinValues (tokens.drop (i + 1)))
            | none =>
              match tokens.findIdx? isTrailingScanTok with
              | some i =>
                Except.ok (joinValues (tokens.take i)
                  ++ (" WHERE " ++ filter_condition ++ " ")
                  ++ joinValues (tokens.drop i))
              | none => Except.ok (query ++ " WHERE " ++ filter_condition)

/-! ### The orchestrator (`main.py`)

`process_query` abstracts its collaborators into a per-query record: the
SQL file load and warehouse execution either raise or produce a table
with a row and column count, and the spreadsheet write either succeeds or
raises.  The transform stage is total (see `apply_pipeline` below), so it
introduces no failure of its own. -/

/-- A pandas table, abstracted to its shape; `df.empty` is true when
either axis has length zero. -/
structure DataFrame where
  nrows : Nat
  ncols : Nat
  deriving DecidableEq, Repr

/-- `df.empty`. -/
def DataFrame.empty (d : DataFrame) : Bool :=
  d.nrows == 0 || d.ncols == 0

/-- Outcome of `load_query_from_file` plus `execute_query` for one query:
an exception (missing SQL file, warehouse failure) or a result table. -/
inductive ExecResult where
  | raises (msg : String)
  | table (df : DataFrame)
  deriving DecidableEq, Repr

/-- The external effects of one configured query in a run. -/
structure QueryRun where
  exec : ExecResult
  writeOk : Bool
  output_file : String
  deriving DecidableEq, Repr

/-- `process_query` from `main.py`: returns the generated file path, or
`None` when the query raised, produced an empty table, or the spreadsheet
write failed.  Note the `df.empty` branch returns `None` exactly like the
error branches do. -/
def process_query (r : QueryRun) : Option String :=
  match r.exec with
  | ExecResult.raises _ => none
  | ExecResult.table df =>
    if df.empty then none
    else if r.writeOk then some r.output_file else none

/-- The `generated_files` list accumulated by `run_pipeline`'s loop. -/
def generated_files (runs : List QueryRun) : List String :=
  runs.filterMap process_query

/-- The number of entries appended to `failed_queries` by the loop: one
per query whose `process_query` returned `None` (or raised). -/
def failed_count (runs : List QueryRun) : Nat :=
  runs.countP (fun r => (process_query r).isNone)

/-- The boolean returned by `run_pipeline`: if files were generated and
the email send raises, `False`; otherwise `len(failed_queries) == 0`. -/
def run_pipeline (runs : List QueryRun) (emailOk : Bool) : Bool :=
  if !(generated_files runs).isEmpty && !emailOk then false
  else failed_count runs == 0

/-! ### The transform loader (`PipelineManager.apply_pipeline`)

`src/modules/pipeline_manager.py` defines `apply_pipeline` twice in the
same class body; in Python the second definition (lines 136-169)
silently replaces the first (lines 62-133), so the second one is the
behavior the pipeline actually runs.  Both are modelled. -/

/-- A Python value returned by a plugin's `transform_data`: a DataFrame
or something of the wrong shape. -/
inductive PyValue where
  | df (d : DataFrame)
  | other (tag : String)
  deriving DecidableEq, Repr

/-- Observable behavior of resolving and invoking the per-query transform
plugin. -/
inductive TransformBehavior where
  /-- `importlib.import_module` raises `ModuleNotFoundError`. -/
  | missingModule
  /-- the import raises a non-`ModuleNotFoundError` `ImportError`. -/
  | importError
  /-- the module exists but has no `transform_data` attribute. -/
  | noFunc
  /-- `transform_data(df)` raises. -/
  | raises (msg : String)
  /-- `transform_data(df)` returns the value. -/
  | returns (v : PyValue)
  deriving DecidableEq, Repr

/-- The second (effective) definition of `apply_pipeline`
(`pipeline_manager.py` lines 136-169): a missing module, missing
function, or raising transform falls back to the input `df`; a returned
value is passed through with no shape check. -/
def apply_pipeline (b : TransformBehavior) (df : DataFrame) : PyValue :=
  match b with
  | TransformBehavior.missingModule => PyValue.df df
  | TransformBehavior.importError => PyValue.df df
  | TransformBehavior.noFunc => PyValue.df df
  | TransformBehavior.raises _ => PyValue.df df
  | TransformBehavior.returns v => v

/-- The first (shadowed, never-executed) definition of `apply_pipeline`
(`pipeline_manager.py` lines 62-133): it additionally returns the input
unchanged when `df` is empty, and checks
`isinstance(df_transformed, pd.DataFrame)`, falling back to the
untransformed `df` when the plugin returned the wrong shape. -/
def apply_pipeline_v1 (b : TransformBehavior) (df : DataFrame) : PyValue :=
  if df.empty then PyValue.df df
  else
    match b with
    | TransformBehavior.missingModule => PyValue.df df
    | TransformBehavior.importError => PyValue.df df
    | TransformBehavior.noFunc => PyValue.df df
    | TransformBehavior.raises _ => PyValue.df df
    | TransformBehavior.returns v =>
      match v with
      | PyValue.df _ => v
      | PyValue.other _ => PyValue.df df

/-! ### Helper lemmas about the injector -/

theorem joinValues_nil : joinValues [] = "" := rfl

theorem joinValues_cons (t : Token) (ts : List Token) :
    joinValues (t :: ts) = t.value ++ joinValues ts := rfl

theorem joinValues_append (a b : List Token) :
    joinValues (a ++ b) = joinValues a ++ joinValues b := by
  induction a with
  | nil => simp [joinValues]
  | cons t ts ih =>
    simp only [List.cons_append, joinValues_cons, ih, String.append_assoc]

theorem joinValues_take_drop (ts : List Token) (i : Nat) :
    joinValues (ts.take i) ++ joinValues (ts.drop i) = joinValues ts := by
  rw [← joinValues_append, List.take_append_drop]

theorem buildConditions_nil : buildConditions [] = [] := rfl

theorem buildConditions_append (a b : FilterRequest) :
    buildConditions (a ++ b) = buildConditions a ++ buildConditions b := by
  simp [buildConditions, List.filterMap_append]

theorem buildConditions_unknown_cons (n : String) (b : FilterRequest)
    (hn : dynamicFilterGet n = none) :
    buildConditions ((n, true) :: b) = buildConditions b := by
  simp [buildConditions, hn]

theorem buildConditions_eq_nil_of_all_false (f : FilterRequest)
    (h : ∀ p ∈ f, p.2 = false) : buildConditions f = [] := by
  induction f with
  | nil => rfl
  | cons p ps ih =>
    have hp := h p (List.mem_cons_self p ps)
    have hrest := ih (fun q hq => h q (List.mem_cons_of_mem p hq))
    simp only [buildConditions, List.filterMap_cons, hp, Bool.false_eq_true, if_false]
    exact hrest

theorem buildConditions_eq_nil_of_no_known (f : FilterRequest)
    (h : ∀ p ∈ f, p.2 = true → dynamicFilterGet p.1 = none) :
    buildConditions f = [] := by
  induction f with
  | nil => rfl
  | cons p ps ih =>
    have hrest := ih (fun q hq => h q (List.mem_cons_of_mem p hq))
    rcases hb : p.2 with _ | _
    · simp only [buildConditions, List.filterMap_cons, hb, Bool.false_eq_true, if_false]
      exact hrest
    · have hp := h p (List.mem_cons_self p ps) hb
      simp only [buildConditions, List.filterMap_cons, hb, if_true, hp]
      exact hrest

theorem buildConditions_ne_nil_of_known (f : FilterRequest) (p : String × Bool)
    (hmem : p ∈ f) (hb : p.2 = true) (hk : (dynamicFilterGet p.1).isSome) :
    buildConditions f ≠ [] := by
  intro hnil
  rcases Option.isSome_iff_exists.1 hk with ⟨v, hv⟩
  have : v ∈ buildConditions f := by
    simp only [buildConditions, List.mem_filterMap]
    exact ⟨p, hmem, by simp [hb, hv]⟩
  rw [hnil] at this
  exact (List.not_mem_nil v) this

/-- Whenever zero predicate fragments resolve, every branch of
`apply_dynamic_filters` returns the query unchanged. -/
theorem apply_dynamic_filters_noop (q : String) (f : FilterRequest)
    (h : buildConditions f = []) : apply_dynamic_filters q f = q := by
  by_cases hf : f.isEmpty
  · simp [apply_dynamic_filters, hf]
  · cases hp : sqlparse_parse q with
    | nil => simp [apply_dynamic_filters, hf, hp]
    | cons st rest => simp [apply_dynamic_filters, hf, hp, h]

/-! ### Full-fidelity reconstruction: the token texts concatenate back to
the original query (the `str(token)` round-trip property of `sqlparse`
that the reassembly step relies on). -/

theorem classifyWord_value (w : String) : (classifyWord w).value = w := by
  simp only [classifyWord]
  split_ifs <;> rfl

theorem mk_cons (c : Char) (cs : List Char) :
    String.mk (c :: cs) = String.mk [c] ++ String.mk cs := rfl

theorem joinValues_flushRun (acc : List Char) (mode : Option Bool) :
    joinValues (flushRun acc mode)
      = (match mode with | none => "" | some _ => String.mk acc) := by
  cases mode with
  | none => rfl
  | some b =>
    cases b <;>
      simp [flushRun, joinValues_cons, joinValues_nil, classifyWord_value,
        String.append_empty]

theorem joinValues_lexAux : ∀ (cs acc : List Char) (mode : Option Bool),
    joinValues (lexAux cs acc mode)
      = joinValues (flushRun acc mode) ++ String.mk cs
  | [], acc, mode => by
    show joinValues (flushRun acc mode) = _
    rw [show String.mk [] = "" from rfl, String.append_empty]
  | c :: cs, acc, mode => by
    have hrec1 := joinValues_lexAux cs (acc ++ [c]) mode
    have hmk : String.mk (acc ++ [c]) = String.mk acc ++ String.mk [c] := rfl
    simp only [lexAux]
    by_cases hw : isWordChar c
    · cases mode with
      | none =>
        simp [hw, joinValues_append, joinValues_lexAux cs [c] (some true),
          joinValues_flushRun, mk_cons c cs, String.append_assoc,
          String.empty_append]
      | some b =>
        cases b <;>
          simp [hw, joinValues_append, joinValues_lexAux cs [c] (some true),
            joinValues_lexAux cs (acc ++ [c]) (some true),
            joinValues_flushRun, mk_cons c cs, hmk, String.append_assoc,
            String.empty_append]
    · by_cases hs : isWsChar c
      · cases mode with
        | none =>
          simp [hw, hs, joinValues_append, joinValues_lexAux cs [c] (some false),
            joinValues_flushRun, mk_cons c cs, String.append_assoc,
            String.empty_append]
        | some b =>
          cases b <;>
            simp [hw, hs, joinValues_append,
              joinValues_lexAux cs [c] (some false),
              joinValues_lexAux cs (acc ++ [c]) (some false),
              joinValues_flushRun, mk_cons c cs, hmk, String.append_assoc,
              String.empty_append]
      · simp [hw, hs, joinValues_append, joinValues_cons,
          joinValues_lexAux cs [] none, joinValues_flushRun, mk_cons c cs,
          String.append_assoc, String.empty_append]

theorem joinValues_lexString (q : String) :
    joinValues (lexString q) = q := by
  rw [lexString, joinValues_lexAux, joinValues_flushRun]
  show "" ++ String.mk q.data = q
  rw [String.empty_append]

theorem joinValues_flushMerge (st : Option (Token × Option Token)) :
    joinValues (flushMerge st)
      = (match st with
         | none => ""
         | some (t1, none) => t1.value
         | some (t1, some w) => t1.value ++ w.value) := by
  rcases st with _ | ⟨t1, _ | w⟩ <;>
    simp [flushMerge, joinValues_cons, joinValues_nil, String.append_empty,
      String.append_assoc]

theorem joinValues_mergeByAux : ∀ (ts : List Token) (st : Option (Token × Option Token)),
    joinValues (mergeByAux st ts) = joinValues (flushMerge st) ++ joinValues ts
  | [], st => by
    rcases st with _ | ⟨t1, _ | w⟩ <;>
      simp [mergeByAux, flushMerge, joinValues_cons, joinValues_nil,
        String.append_empty, String.append_assoc]
  | t :: rest, st => by
    rcases st with _ | ⟨t1, _ | w⟩ <;>
      simp only [mergeByAux] <;>
      split_ifs <;>
      simp [joinValues_mergeByAux rest, flushMerge, joinValues_cons,
        joinValues_nil, String.append_empty, String.empty_append,
        String.append_assoc]

/-- Text accumulated in an open `Where` group. -/
def modeText : Option String → String
  | none => ""
  | some acc => acc

theorem joinValues_groupWhereAux : ∀ (ts : List Token) (mode : Option String),
    joinValues (groupWhereAux mode ts) = modeText mode ++ joinValues ts
  | [], mode => by
    cases mode with
    | none => rfl
    | some acc =>
      show joinValues [⟨none, acc⟩] = acc ++ joinValues []
      rw [joinValues_cons, joinValues_nil]
  | t :: rest, mode => by
    cases mode <;>
      simp only [groupWhereAux] <;>
      split_ifs <;>
      simp [joinValues_groupWhereAux rest, modeText, joinValues_cons,
        joinValues_nil, String.append_empty, String.empty_append,
        String.append_assoc]

/-- Full-fidelity reconstruction: the top-level tokens of the parsed
statement concatenate back to the original query text. -/
theorem joinValues_parse (q : String) (st : Statement) (sts : List Statement)
    (hp : sqlparse_parse q = st :: sts) : joinValues st.tokens = q := by
  unfold sqlparse_parse at hp
  by_cases h : (lexString q).isEmpty
  · simp [h] at hp
  · simp only [h, Bool.false_eq_true, if_false] at hp
    have hst : st = ⟨groupWhereAux none (mergeBy (lexString q))⟩ := by
      injection hp with h1 _
      exact h1.symm
    rw [hst]
    show joinValues (groupWhereAux none (mergeBy (lexString q))) = q
    rw [joinValues_groupWhereAux, mergeBy, joinValues_mergeByAux,
      joinValues_flushMerge]
    show "" ++ ("" ++ joinValues (lexString q)) = q
    rw [String.empty_append, String.empty_append, joinValues_lexString]

/-- After the empty-request fast path, the output depends only on the
query text and the resolved condition list. -/
theorem apply_dynamic_filters_congr (q : String) (f g : FilterRequest)
    (hf : f.isEmpty = false) (hg : g.isEmpty = false)
    (h : buildConditions f = buildConditions g) :
    apply_dynamic_filters q f = apply_dynamic_filters q g := by
  simp only [apply_dynamic_filters, hf, hg, h, Bool.false_eq_true, if_false]

/-- The guarded dictionary access in the condition loop never errors and
computes the same list as `buildConditions`. -/
theorem buildConditionsEGo_ok : ∀ (f : FilterRequest) (acc : List String),
    buildConditionsEGo f acc = Except.ok (acc ++ buildConditions f)
  | [], acc => by simp [buildConditionsEGo, buildConditions]
  | p :: ps, acc => by
    rcases hb : p.2 with _ | _
    · simp only [buildConditionsEGo, hb, Bool.false_and, Bool.false_eq_true,
        if_false, buildConditions, List.filterMap_cons]
      exact buildConditionsEGo_ok ps acc
    · cases hk : dynamicFilterGet p.1 with
      | none =>
        simp only [buildConditionsEGo, hb, hk, Option.isSome_none,
          Bool.and_false, Bool.false_eq_true, if_false, buildConditions,
          List.filterMap_cons, if_true]
        exact buildConditionsEGo_ok ps acc
      | some v =>
        simp only [buildConditionsEGo, hb, hk, Option.isSome_some,
          Bool.and_self, if_true, dynamicFilterItem, buildConditions,
          List.filterMap_cons]
        rw [buildConditionsEGo_ok ps (acc ++ [v])]
        simp [buildConditions]

theorem buildConditionsE_ok (f : FilterRequest) :
    buildConditionsE f = Except.ok (buildConditions f) := by
  rw [buildConditionsE, buildConditionsEGo_ok f []]
  rfl

/-! ## The claims -/

/-- C1: the claim says that for a query with a top-level WHERE clause the
injector inserts `(C) AND ` right after the WHERE keyword; in particular
`SELECT * FROM t WHERE active = true ORDER BY id` with the current-month
filter should become
`SELECT * FROM t WHERE (EXTRACT(MONTH FROM fecha) = EXTRACT(MONTH FROM CURRENT_DATE())) AND active = true ORDER BY id`.
The code does not do this: `sqlparse` wraps `WHERE active = true ` into a
`Where` group token whose `ttype` is not `Keyword`, so the scan for the
WHERE keyword never fires and the trailing-clause branch inserts a second
`WHERE` before `ORDER BY`, yielding invalid SQL with two WHERE clauses. -/
theorem claim_C1_eval :
    apply_dynamic_filters "SELECT * FROM t WHERE active = true ORDER BY id"
        [("mes_actual", true)]
      = "SELECT * FROM t WHERE active = true  WHERE EXTRACT(MONTH FROM fecha) = EXTRACT(MONTH FROM CURRENT_DATE()) ORDER BY id"
    ∧ apply_dynamic_filters "SELECT * FROM t WHERE active = true ORDER BY id"
        [("mes_actual", true)]
      ≠ "SELECT * FROM t WHERE (EXTRACT(MONTH FROM fecha) = EXTRACT(MONTH FROM CURRENT_DATE())) AND active = true ORDER BY id" := by
  constructor
  · decide
  · decide

/-- C2: for every query whose parsed statement has no top-level WHERE
keyword token but a first trailing-clause keyword (`GROUP BY`, `ORDER BY`
or `LIMIT`) at position `i`, and every request resolving to a non-empty
condition list, the injector inserts ` WHERE <C> ` immediately before
that keyword and reassembles all the original tokens verbatim around it
(their concatenation being exactly the original query text). -/
theorem claim_C2 (q : String) (f : FilterRequest) (st : Statement)
    (sts : List Statement) (i : Nat)
    (hp : sqlparse_parse q = st :: sts)
    (hw : st.tokens.findIdx? isWhereScanTok = none)
    (ht : st.tokens.findIdx? isTrailingScanTok = some i)
    (hc : buildConditions f ≠ []) :
    apply_dynamic_filters q f
      = joinValues (st.tokens.take i)
        ++ (" WHERE " ++ String.intercalate " AND " (buildConditions f) ++ " ")
        ++ joinValues (st.tokens.drop i)
    ∧ joinValues (st.tokens.take i) ++ joinValues (st.tokens.drop i) = q := by
  have hf : f.isEmpty = false := by
    cases f with
    | nil => exact absurd rfl hc
    | cons a l => rfl
  have hce : (buildConditions f).isEmpty = false := by
    cases h : buildConditions f with
    | nil => exact absurd h hc
    | cons a l => rfl
  constructor
  · simp only [apply_dynamic_filters, hf, Bool.false_eq_true, if_false, hp,
      hw, ht, hce]
  · rw [joinValues_take_drop, joinValues_parse q st sts hp]

/-- C3: for every query whose parsed statement has neither a top-level
WHERE keyword token nor any trailing-clause keyword, and every request
with at least one catalog-known true entry, the injector appends
` WHERE <C>` to the original query text, `C` being the resolved fragments
joined with ` AND ` in request-iteration order. -/
theorem claim_C3 (q : String) (f : FilterRequest) (st : Statement)
    (sts : List Statement)
    (hp : sqlparse_parse q = st :: sts)
    (hw : st.tokens.findIdx? isWhereScanTok = none)
    (ht : st.tokens.findIdx? isTrailingScanTok = none)
    (hk : ∃ p ∈ f, p.2 = true ∧ (dynamicFilterGet p.1).isSome) :
    apply_dynamic_filters q f
      = q ++ " WHERE " ++ String.intercalate " AND " (buildConditions f) := by
  rcases hk with ⟨p, hmem, hb, hsome⟩
  have hc : buildConditions f ≠ [] :=
    buildConditions_ne_nil_of_known f p hmem hb hsome
  have hf : f.isEmpty = false := by
    cases f with
    | nil => exact absurd rfl hc
    | cons a l => rfl
  have hce : (buildConditions f).isEmpty = false := by
    cases h : buildConditions f with
    | nil => exact absurd h hc
    | cons a l => rfl
  simp only [apply_dynamic_filters, hf, Bool.false_eq_true, if_false, hp,
    hw, ht, hce, String.append_assoc]

/-- C4 as stated is false: when the parser yields no statements the code
returns the query unchanged (`if not parsed: return query`), not the
append-at-end result.  At the empty query with the current-month filter
the claimed output would be ` WHERE EXTRACT(...)`, but the code returns
`""`. -/
theorem claim_C4_counterexample :
    sqlparse_parse "" = []
    ∧ buildConditions [("mes_actual", true)] ≠ []
    ∧ apply_dynamic_filters "" [("mes_actual", true)] = ""
    ∧ apply_dynamic_filters "" [("mes_actual", true)]
        ≠ "" ++ " WHERE "
          ++ String.intercalate " AND " (buildConditions [("mes_actual", true)]) := by
  refine ⟨by decide, by decide, by decide, by decide⟩

/-- C4 (amended): for every query text on which the SQL parser yields no
statements and every filter request, the injector returns the query
unchanged (it neither raises nor aborts the pipeline — but it does not
fall through to the append-at-end strategy either). -/
theorem claim_C4 (q : String) (f : FilterRequest)
    (hp : sqlparse_parse q = []) : apply_dynamic_filters q f = q := by
  by_cases hf : f.isEmpty
  · simp [apply_dynamic_filters, hf]
  · simp [apply_dynamic_filters, hf, hp]

theorem claim_C4_witness :
    sqlparse_parse "" = []
    ∧ apply_dynamic_filters "" [("mes_actual", true), ("año_actual", true)] = "" :=
  ⟨by decide, claim_C4 "" [("mes_actual", true), ("año_actual", true)] (by decide)⟩

theorem claim_C2_witness :
    apply_dynamic_filters "SELECT * FROM t ORDER BY id" [("mes_actual", true)]
      = joinValues ((Statement.mk
          [⟨some TType.DML, "SELECT"⟩, ⟨some TType.Whitespace, " "⟩,
           ⟨some TType.Punct, "*"⟩, ⟨some TType.Whitespace, " "⟩,
           ⟨some TType.Keyword, "FROM"⟩, ⟨some TType.Whitespace, " "⟩,
           ⟨some TType.Name, "t"⟩, ⟨some TType.Whitespace, " "⟩,
           ⟨some TType.Keyword, "ORDER BY"⟩, ⟨some TType.Whitespace, " "⟩,
           ⟨some TType.Name, "id"⟩]).tokens.take 8)
        ++ (" WHERE "
          ++ String.intercalate " AND " (buildConditions [("mes_actual", true)])
          ++ " ")
        ++ joinValues ((Statement.mk
          [⟨some TType.DML, "SELECT"⟩, ⟨some TType.Whitespace, " "⟩,
           ⟨some TType.Punct, "*"⟩, ⟨some TType.Whitespace, " "⟩,
           ⟨some TType.Keyword, "FROM"⟩, ⟨some TType.Whitespace, " "⟩,
           ⟨some TType.Name, "t"⟩, ⟨some TType.Whitespace, " "⟩,
           ⟨some TType.Keyword, "ORDER BY"⟩, ⟨some TType.Whitespace, " "⟩,
           ⟨some TType.Name, "id"⟩]).tokens.drop 8)
    ∧ joinValues ((Statement.mk
          [⟨some TType.DML, "SELECT"⟩, ⟨some TType.Whitespace, " "⟩,
           ⟨some TType.Punct, "*"⟩, ⟨some TType.Whitespace, " "⟩,
           ⟨some TType.Keyword, "FROM"⟩, ⟨some TType.Whitespace, " "⟩,
           ⟨some TType.Name, "t"⟩, ⟨some TType.Whitespace, " "⟩,
           ⟨some TType.Keyword, "ORDER BY"⟩, ⟨some TType.Whitespace, " "⟩,
           ⟨some TType.Name, "id"⟩]).tokens.take 8)
        ++ joinValues ((Statement.mk
          [⟨some TType.DML, "SELECT"⟩, ⟨some TType.Whitespace, " "⟩,
           ⟨some TType.Punct, "*"⟩, ⟨some TType.Whitespace, " "⟩,
           ⟨some TType.Keyword, "FROM"⟩, ⟨some TType.Whitespace, " "⟩,
           ⟨some TType.Name, "t"⟩, ⟨some TType.Whitespace, " "⟩,
           ⟨some TType.Keyword, "ORDER BY"⟩, ⟨some TType.Whitespace, " "⟩,
           ⟨some TType.Name, "id"⟩]).tokens.drop 8)
      = "SELECT * FROM t ORDER BY id" :=
  claim_C2 "SELECT * FROM t ORDER BY id" [("mes_actual", true)]
    (Statement.mk
      [⟨some TType.DML, "SELECT"⟩, ⟨some TType.Whitespace, " "⟩,
       ⟨some TType.Punct, "*"⟩, ⟨some TType.Whitespace, " "⟩,
       ⟨some TType.Keyword, "FROM"⟩, ⟨some TType.Whitespace, " "⟩,
       ⟨some TType.Name, "t"⟩, ⟨some TType.Whitespace, " "⟩,
       ⟨some TType.Keyword, "ORDER BY"⟩, ⟨some TType.Whitespace, " "⟩,
       ⟨some TType.Name, "id"⟩])
    [] 8 (by decide) (by decide) (by decide) (by decide)

theorem claim_C3_witness :
    apply_dynamic_filters "SELECT * FROM t" [("mes_actual", true)]
      = "SELECT * FROM t" ++ " WHERE "
        ++ String.intercalate " AND " (buildConditions [("mes_actual", true)]) :=
  claim_C3 "SELECT * FROM t" [("mes_actual", true)]
    (Statement.mk
      [⟨some TType.DML, "SELECT"⟩, ⟨some TType.Whitespace, " "⟩,
       ⟨some TType.Punct, "*"⟩, ⟨some TType.Whitespace, " "⟩,
       ⟨some TType.Keyword, "FROM"⟩, ⟨some TType.Whitespace, " "⟩,
       ⟨some TType.Name, "t"⟩])
    [] (by decide) (by decide) (by decide) (by decide)

/-- C5 as stated is false: a query that executes without error but
returns zero rows makes `process_query` return `None`, which the
`run_pipeline` loop appends to `failed_queries`; the final success flag
is `len(failed_queries) == 0`, so a run whose only query returned zero
rows reports failure, not success.  (The true parts: no spreadsheet path
is produced and nothing is raised.) -/
theorem claim_C5_counterexample :
    process_query ⟨ExecResult.table ⟨0, 3⟩, true, "reports/r.xlsx"⟩ = none
    ∧ run_pipeline [⟨ExecResult.table ⟨0, 3⟩, true, "reports/r.xlsx"⟩] true
        = false := by
  refine ⟨by decide, by decide⟩

/-- C5 (amended): a query that executes without error but returns zero
rows produces no spreadsheet (`process_query` returns `None`), and it IS
counted as a failed query, so any run containing such a query has final
success flag `false` — the success flag is `true` iff zero queries
failed, with zero-row queries counted among the failures. -/
theorem claim_C5 (runs : List QueryRun) (r : QueryRun) (emailOk : Bool)
    (df : DataFrame) (hmem : r ∈ runs) (hexec : r.exec = ExecResult.table df)
    (h0 : df.nrows = 0) :
    process_query r = none ∧ run_pipeline runs emailOk = false := by
  have hnone : process_query r = none := by
    simp [process_query, hexec, DataFrame.empty, h0]
  refine ⟨hnone, ?_⟩
  have hpos : 0 < failed_count runs := by
    rw [failed_count, List.countP_pos_iff]
    exact ⟨r, hmem, by simp [hnone]⟩
  have hne : (failed_count runs == 0) = false := by
    cases hfc : failed_count runs with
    | zero => rw [hfc] at hpos; exact absurd hpos (by simp)
    | succ n => rfl
  rw [run_pipeline]
  split
  · rfl
  · exact hne

theorem claim_C5_witness :
    process_query ⟨ExecResult.table ⟨0, 3⟩, true, "reports/Ingresos-GAIA.xlsx"⟩
        = none
    ∧ run_pipeline
        [⟨ExecResult.table ⟨0, 3⟩, true, "reports/Ingresos-GAIA.xlsx"⟩,
         ⟨ExecResult.table ⟨7, 3⟩, true, "reports/Ingresos-Condominios-BI.xlsx"⟩]
        true = false :=
  claim_C5
    [⟨ExecResult.table ⟨0, 3⟩, true, "reports/Ingresos-GAIA.xlsx"⟩,
     ⟨ExecResult.table ⟨7, 3⟩, true, "reports/Ingresos-Condominios-BI.xlsx"⟩]
    ⟨ExecResult.table ⟨0, 3⟩, true, "reports/Ingresos-GAIA.xlsx"⟩
    true ⟨0, 3⟩ (by decide) rfl rfl

/-- C6: the claim matches the first `apply_pipeline` definition, but that
definition is shadowed by the second one in the same class body, and the
second definition performs no `isinstance` check: a transform that
returns a non-DataFrame value is passed through instead of falling back
to the untransformed table.  Missing-module and raising transforms do
fall back as claimed, and nothing is raised. -/
theorem claim_C6_eval :
    apply_pipeline (TransformBehavior.returns (PyValue.other "list")) ⟨5, 3⟩
        = PyValue.other "list"
    ∧ PyValue.other "list" ≠ PyValue.df ⟨5, 3⟩
    ∧ apply_pipeline_v1 (TransformBehavior.returns (PyValue.other "list")) ⟨5, 3⟩
        = PyValue.df ⟨5, 3⟩
    ∧ apply_pipeline TransformBehavior.missingModule ⟨5, 3⟩ = PyValue.df ⟨5, 3⟩
    ∧ apply_pipeline (TransformBehavior.raises "boom") ⟨5, 3⟩
        = PyValue.df ⟨5, 3⟩ := by
  refine ⟨rfl, by decide, rfl, rfl, rfl⟩

/-- C7: the injector returns the query unchanged whenever the request is
empty, maps every name to false, maps no catalog-known name to true, or
(equivalently) resolves to zero fragments. -/
theorem claim_C7 (q : String) (f : FilterRequest)
    (h : f = []
      ∨ (∀ p ∈ f, p.2 = false)
      ∨ (∀ p ∈ f, p.2 = true → dynamicFilterGet p.1 = none)
      ∨ buildConditions f = []) :
    apply_dynamic_filters q f = q := by
  rcases h with h | h | h | h
  · rw [h]
    exact apply_dynamic_filters_noop q [] rfl
  · exact apply_dynamic_filters_noop q f (buildConditions_eq_nil_of_all_false f h)
  · exact apply_dynamic_filters_noop q f (buildConditions_eq_nil_of_no_known f h)
  · exact apply_dynamic_filters_noop q f h

theorem claim_C7_witness :
    apply_dynamic_filters "SELECT * FROM t WHERE active = true"
        [("mes_actual", false), ("año_actual", false)]
      = "SELECT * FROM t WHERE active = true" :=
  claim_C7 "SELECT * FROM t WHERE active = true"
    [("mes_actual", false), ("año_actual", false)]
    (Or.inr (Or.inl (by decide)))

/-- C8: adding an entry with a catalog-unknown name mapped to true,
anywhere in the request, yields exactly the same output as omitting that
entry. -/
theorem claim_C8 (q : String) (n : String) (l1 l2 : FilterRequest)
    (hn : dynamicFilterGet n = none) :
    apply_dynamic_filters q (l1 ++ (n, true) :: l2)
      = apply_dynamic_filters q (l1 ++ l2) := by
  have hc : buildConditions (l1 ++ (n, true) :: l2) = buildConditions (l1 ++ l2) := by
    rw [buildConditions_append, buildConditions_append,
      buildConditions_unknown_cons n l2 hn]
  by_cases h : (l1 ++ l2).isEmpty
  · have hnil : l1 ++ l2 = [] := by simpa using h
    rcases List.append_eq_nil.1 hnil with ⟨h1, h2⟩
    subst h1; subst h2
    show apply_dynamic_filters q [(n, true)] = apply_dynamic_filters q []
    rw [apply_dynamic_filters_noop q [(n, true)]
        (buildConditions_unknown_cons n [] hn)]
    rfl
  · have hne1 : (l1 ++ (n, true) :: l2).isEmpty = false := by
      cases l1 <;> rfl
    have hne2 : (l1 ++ l2).isEmpty = false := by
      cases hh : (l1 ++ l2).isEmpty with
      | true => exact absurd hh h
      | false => rfl
    exact apply_dynamic_filters_congr q _ _ hne1 hne2 hc

theorem claim_C8_witness :
    apply_dynamic_filters "SELECT * FROM t"
        [("mes_actual", true), ("filtro_desconocido", true)]
      = apply_dynamic_filters "SELECT * FROM t" [("mes_actual", true)] :=
  claim_C8 "SELECT * FROM t" "filtro_desconocido" [("mes_actual", true)] []
    (by decide)

/-- C9: injection is not idempotent — applying the injector twice with
the current-month filter to `SELECT * FROM t` appends a second
`WHERE` clause, so the result differs from a single application. -/
theorem claim_C9 :
    apply_dynamic_filters
        (apply_dynamic_filters "SELECT * FROM t" [("mes_actual", true)])
        [("mes_actual", true)]
      ≠ apply_dynamic_filters "SELECT * FROM t" [("mes_actual", true)] := by
  decide

/-- C10: `apply_dynamic_filters` is total at its public interface — with
its two partial primitive operations (tuple indexing and dictionary
indexing) made explicit, the function never produces an error: every
query string and filter mapping reaches a returning branch, agreeing with
the total transcription. -/
theorem claim_C10 (q : String) (f : FilterRequest) :
    apply_dynamic_filtersE q f = Except.ok (apply_dynamic_filters q f) := by
  by_cases hf : f.isEmpty
  · simp [apply_dynamic_filtersE, apply_dynamic_filters, hf]
  · cases hp : sqlparse_parse q with
    | nil =>
      simp [apply_dynamic_filtersE, apply_dynamic_filters, hf, hp]
    | cons st rest =>
      simp only [apply_dynamic_filtersE, apply_dynamic_filters, hf,
        Bool.false_eq_true, if_false, hp, List.isEmpty_cons, firstStatement,
        buildConditionsE_ok f]
      by_cases hc : (buildConditions f).isEmpty
      · simp [hc]
      · simp only [hc, Bool.false_eq_true, if_false]
        cases st.tokens.findIdx? isWhereScanTok with
        | some i => rfl
        | none =>
          cases st.tokens.findIdx? isTrailingScanTok with
          | some i => rfl
          | none => rfl

end Postventa
